import Mathlib

/-!
Shallow embedding of the student-feedback dashboard (`src/app.py`) and proofs
of the specification claims about it.

Modelling conventions:
* A pandas cell that may be missing (None / NaN) is an `Option String`;
  `none` stands for both Python `None` and float NaN.
* The dataframe is a `FeedbackTable`: a list of column names plus a list of
  rows, each row carrying the three fields the app touches (`Id`, `comment`,
  `Sentiment`), each as an `Option String` (`none` when the column is absent
  or the cell is missing).
* The remote LLM call is an oracle `remote : String → Except String String`:
  `Except.ok s` is a successful completion with content `s`, `Except.error e`
  is any raised exception with message `e`.
* Streamlit messages (`st.error`, `st.warning`, `st.success`) are collected
  in lists of strings; an uncaught Python exception is `Except.error`.
-/

/-- One row of the loaded dataframe.  Each field is the cell of the
corresponding column, `none` when the column is absent or the cell is NaN. -/
structure Row where
  id : Option String
  comment : Option String
  sentiment : Option String
deriving Repr, DecidableEq

/-- The loaded dataframe: its column names and its rows, in order. -/
structure FeedbackTable where
  columns : List String
  rows : List Row
deriving Repr, DecidableEq

/-- Result of one call of `get_sentiment`: the returned label, how many
remote calls were made, and the `st.error` messages emitted. -/
structure ClassifyResult where
  label : String
  remoteCalls : Nat
  errors : List String
deriving Repr, DecidableEq

/-- Embeds line 23 of `src/app.py`: `if not text or pd.isna(text)`.
`not text` is true for Python `None` and for the empty string; `pd.isna`
is true for `None` and NaN.  With missing cells modelled as `none`, the
disjunction holds exactly for `none` and `some ""`. -/
def isMissingText (text : Option String) : Bool :=
  match text with
  | none => true
  | some s => s = ""

/-- Embeds `get_sentiment` (`src/app.py` lines 22-39), parametrised by the
remote oracle.  Missing/empty text short-circuits to `"Neutral"` with no
remote call; otherwise one remote call is made inside `try`: on success the
stripped content is returned, on any exception `st.error` is emitted and
`"Neutral"` is returned.  The function is total: no exception escapes. -/
def get_sentiment (remote : String → Except String String) (text : Option String) :
    ClassifyResult :=
  if isMissingText text then
    { label := "Neutral", remoteCalls := 0, errors := [] }
  else
    match text with
    | none => { label := "Neutral", remoteCalls := 0, errors := [] }
    | some s =>
      match remote s with
      | Except.ok content =>
        { label := content.trim, remoteCalls := 1, errors := [] }
      | Except.error e =>
        { label := "Neutral", remoteCalls := 1, errors := ["API error: " ++ e] }

/-- C2: for empty or missing text, `get_sentiment` returns `Neutral` and
makes no remote call, whatever the remote oracle does. -/
theorem c2_missing_text_neutral_no_call
    (remote : String → Except String String) (text : Option String)
    (h : isMissingText text = true) :
    (get_sentiment remote text).label = "Neutral" ∧
      (get_sentiment remote text).remoteCalls = 0 := by
  unfold get_sentiment
  rw [h]
  exact ⟨rfl, rfl⟩

/-- Witness for C2 at the concrete inputs `some ""` (empty string) and
`none` (None/NaN), with a remote oracle that would answer `"Positive"`. -/
theorem c2_missing_text_neutral_no_call_witness :
    isMissingText (some "") = true ∧
      (get_sentiment (fun _ => Except.ok "Positive") (some "")).label = "Neutral" ∧
      (get_sentiment (fun _ => Except.ok "Positive") (some "")).remoteCalls = 0 :=
  ⟨by decide, c2_missing_text_neutral_no_call (fun _ => Except.ok "Positive") (some "") (by decide)⟩

/-- C3: if the remote call raises any exception, `get_sentiment` emits the
non-fatal `st.error` message and returns `Neutral`; being a total function,
it never propagates the exception to its caller. -/
theorem c3_remote_failure_neutral
    (remote : String → Except String String) (s e : String)
    (hs : s ≠ "") (h : remote s = Except.error e) :
    (get_sentiment remote (some s)).label = "Neutral" ∧
      (get_sentiment remote (some s)).errors = ["API error: " ++ e] := by
  have hm : isMissingText (some s) = false := by simp [isMissingText, hs]
  simp [get_sentiment, hm, h]

/-- Witness for C3: a remote oracle that always raises `"boom"` on the
concrete input `"great class"`. -/
theorem c3_remote_failure_neutral_witness :
    ("great class" ≠ "") ∧
      (get_sentiment (fun _ => Except.error "boom") (some "great class")).label = "Neutral" ∧
      (get_sentiment (fun _ => Except.error "boom") (some "great class")).errors =
        ["API error: boom"] :=
  ⟨by decide,
    c3_remote_failure_neutral (fun _ => Except.error "boom") "great class" "boom"
      (by decide) rfl⟩

/-- C9: a whitespace-only string is not treated as missing (it is truthy and
not NaN), so it is submitted to the remote endpoint: exactly one remote call
is made, whatever the oracle replies. -/
theorem c9_whitespace_goes_remote
    (remote : String → Except String String) :
    isMissingText (some "  ") = false ∧
      (get_sentiment remote (some "  ")).remoteCalls = 1 := by
  refine ⟨by decide, ?_⟩
  unfold get_sentiment
  simp only [isMissingText]
  cases h : remote "  " with
  | ok content => simp [h]
  | error e => simp [h]

/-- Witness for C9 with a concrete remote oracle. -/
theorem c9_whitespace_goes_remote_witness :
    isMissingText (some "  ") = false ∧
      (get_sentiment (fun _ => Except.error "down") (some "  ")).remoteCalls = 1 :=
  c9_whitespace_goes_remote (fun _ => Except.error "down")

/-- Embeds `Series.apply` over the `comment` cells of a list of rows, with
the applied function allowed to raise: cells are processed left to right and
the first exception aborts the whole apply, discarding all results computed
so far (pandas materialises the complete result series before anything is
assigned back to the dataframe). -/
def applyClassify (f : Option String → Except String String) :
    List Row → Except String (List String)
  | [] => Except.ok []
  | r :: rs =>
    match f r.comment with
    | Except.error e => Except.error e
    | Except.ok l =>
      match applyClassify f rs with
      | Except.error e => Except.error e
      | Except.ok ls => Except.ok (l :: ls)

/-- Row side of the assignment `df.loc[:4, "Sentiment"] = series`
(`src/app.py` line 63): the i-th label is written into the i-th row's
`Sentiment` cell; rows beyond the written labels keep their cell (for a
freshly created column that cell is NaN, i.e. `none`). -/
def writeLabels : List Row → List String → List Row
  | [], _ => []
  | rs, [] => rs
  | r :: rs, l :: ls => { r with sentiment := some l } :: writeLabels rs ls

/-- Column side of the same assignment: the `Sentiment` column is created if
it is not already present. -/
def addSentimentColumn (cols : List String) : List String :=
  if "Sentiment" ∈ cols then cols else cols ++ ["Sentiment"]

/-- Embeds the Analyze Sentiment handler (`src/app.py` lines 61-66), with the
per-row classification allowed to raise so that exception behaviour can be
stated.  Inside the `try`: `df["comment"]` raises KeyError when that column
is absent; otherwise the first five comments are classified in order and,
only when all of them succeed, written into the `Sentiment` column by a
single `.loc[:4]` assignment.  Any exception is caught and reported via
`st.error`, leaving the table unchanged. -/
def analyzeBatch (f : Option String → Except String String) (t : FeedbackTable) :
    FeedbackTable × List String :=
  if "comment" ∈ t.columns then
    match applyClassify f (t.rows.take 5) with
    | Except.ok labels =>
      ({ columns := addSentimentColumn t.columns, rows := writeLabels t.rows labels },
       ["Sentiment analysis completed!"])
    | Except.error e => (t, ["Something went wrong: " ++ e])
  else (t, ["Something went wrong: comment"])

/-- The Analyze Sentiment handler as it actually runs: every row is
classified by `get_sentiment`, which is total, so the per-row step never
raises. -/
def analyze (remote : String → Except String String) (t : FeedbackTable) :
    FeedbackTable × List String :=
  analyzeBatch (fun c => Except.ok (get_sentiment remote c).label) t

/-- The `Sentiment` cell of row `i`, `none` when the row does not exist. -/
def sentimentAt (rows : List Row) (i : Nat) : Option String :=
  match rows[i]? with
  | some r => r.sentiment
  | none => none

theorem applyClassify_total (g : Option String → String) (rs : List Row) :
    applyClassify (fun c => Except.ok (g c)) rs =
      Except.ok (rs.map (fun r => g r.comment)) := by
  induction rs with
  | nil => rfl
  | cons r rs ih => simp [applyClassify, ih]

theorem writeLabels_length (rs : List Row) (ls : List String) :
    (writeLabels rs ls).length = rs.length := by
  induction rs generalizing ls with
  | nil => cases ls <;> rfl
  | cons r rs ih =>
    cases ls with
    | nil => rfl
    | cons l ls => simp [writeLabels, ih]

theorem writeLabels_getElem? (rs : List Row) (ls : List String) (i : Nat) :
    (writeLabels rs ls)[i]? =
      match rs[i]?, ls[i]? with
      | some r, some l => some { r with sentiment := some l }
      | some r, none => some r
      | none, _ => none := by
  induction rs generalizing ls i with
  | nil => cases ls <;> cases i <;> rfl
  | cons r rs ih =>
    cases ls with
    | nil => cases h : (r :: rs)[i]? <;> simp [writeLabels, h]
    | cons l ls =>
      cases i with
      | zero => simp [writeLabels]
      | succ j => simpa [writeLabels] using ih ls j

/-- C1: after the Analyze Sentiment action on a freshly loaded table (no
`Sentiment` values yet) that has a `comment` column, the row count is
unchanged and a row carries a `Sentiment` value exactly when its index is
below 5: with at least five rows exactly the first five are labelled and no
other row is, with fewer than five rows every row is labelled. -/
theorem c1_analyze_labels_first_five
    (remote : String → Except String String) (t : FeedbackTable)
    (hc : "comment" ∈ t.columns)
    (hfresh : ∀ r ∈ t.rows, r.sentiment = none) :
    ((analyze remote t).1.rows.length = t.rows.length) ∧
      ∀ i, i < t.rows.length →
        ((sentimentAt (analyze remote t).1.rows i).isSome = true ↔ i < 5) := by
  have hrows : (analyze remote t).1.rows =
      writeLabels t.rows
        ((t.rows.take 5).map (fun r => (get_sentiment remote r.comment).label)) := by
    unfold analyze analyzeBatch
    rw [if_pos hc, applyClassify_total]
  refine ⟨by rw [hrows]; exact writeLabels_length _ _, ?_⟩
  intro i hi
  set labels := (t.rows.take 5).map (fun r => (get_sentiment remote r.comment).label)
    with hl
  have hlen : labels.length = min 5 t.rows.length := by simp [hl]
  rw [hrows]
  unfold sentimentAt
  rw [writeLabels_getElem?]
  have hr : t.rows[i]? = some (t.rows[i]) := List.getElem?_eq_getElem hi
  by_cases h5 : i < 5
  · have hil : i < labels.length := by rw [hlen]; exact Nat.lt_min.mpr ⟨h5, hi⟩
    have hls : labels[i]? = some (labels[i]) := List.getElem?_eq_getElem hil
    rw [hr, hls]
    simp [h5]
  · have hil : labels.length ≤ i := by
      rw [hlen]; exact le_trans (Nat.min_le_left _ _) (Nat.le_of_not_lt h5)
    have hls : labels[i]? = none := List.getElem?_eq_none hil
    rw [hr, hls]
    have hnone := hfresh (t.rows[i]) (List.getElem_mem hi)
    simp [hnone, h5]

/-- A remote oracle used by witnesses: always answers `"Positive"`. -/
def remoteAlwaysPositive : String → Except String String :=
  fun _ => Except.ok "Positive"

/-- A freshly loaded six-row table used by witnesses. -/
def tableSix : FeedbackTable :=
  { columns := ["Id", "comment"],
    rows :=
      [{ id := some "S1", comment := some "great class", sentiment := none },
       { id := some "S2", comment := some "", sentiment := none },
       { id := some "S3", comment := none, sentiment := none },
       { id := some "S4", comment := some "terrible pacing", sentiment := none },
       { id := some "S5", comment := some "fine", sentiment := none },
       { id := some "S6", comment := some "unlabelled row", sentiment := none }] }

/-- Witness for C1 on the concrete six-row table: exactly rows 0-4 end up
with a `Sentiment` value. -/
theorem c1_analyze_labels_first_five_witness :
    ("comment" ∈ tableSix.columns) ∧ (∀ r ∈ tableSix.rows, r.sentiment = none) ∧
      (((analyze remoteAlwaysPositive tableSix).1.rows.length = tableSix.rows.length) ∧
        ∀ i, i < tableSix.rows.length →
          ((sentimentAt (analyze remoteAlwaysPositive tableSix).1.rows i).isSome = true ↔
            i < 5)) :=
  ⟨by decide, by decide,
    c1_analyze_labels_first_five remoteAlwaysPositive tableSix (by decide) (by decide)⟩

/-- Embeds `Series.value_counts` (pandas) applied to a column of possibly
missing strings (`src/app.py` line 95): missing cells are dropped, and every
distinct remaining value is paired with its number of occurrences.  pandas
additionally orders the resulting rows by descending count; no claim depends
on that row order, so it is not modelled. -/
def value_counts (vals : List (Option String)) : List (String × Nat) :=
  let xs := vals.filterMap id
  xs.dedup.map (fun v => (v, xs.count v))

/-- `sentiment_counts` (`src/app.py` lines 95-96): the per-label counts of
the filtered rows' `Sentiment` column. -/
def sentiment_counts (rows : List Row) : List (String × Nat) :=
  value_counts (rows.map (fun r => r.sentiment))

/-- Fixed presentation order of the labels (`src/app.py` line 99). -/
def sentiment_order : List String := ["Negative", "Neutral", "Positive"]

/-- `existing_sentiments` (`src/app.py` line 103): the distinct labels
occurring in the counts table. -/
def existing_sentiments (rows : List Row) : List String :=
  (sentiment_counts rows).map Prod.fst

/-- `filtered_order` (`src/app.py` line 104): the fixed order restricted to
the labels actually present; it is used as the categorical order of the bar
chart, so it is the chart's category sequence. -/
def filtered_order (rows : List Row) : List String :=
  sentiment_order.filter (fun s => (existing_sentiments rows).contains s)

theorem contains_eq_true_iff_mem (l : List String) (s : String) :
    l.contains s = true ↔ s ∈ l := by
  simp [List.contains_iff_exists_mem_beq, beq_iff_eq]

theorem existing_sentiments_eq_dedup (rows : List Row) :
    existing_sentiments rows =
      ((rows.map (fun r => r.sentiment)).filterMap id).dedup := by
  unfold existing_sentiments sentiment_counts value_counts
  simp [List.map_map, Function.comp_def]

theorem mem_existing_sentiments (rows : List Row) (s : String) :
    s ∈ existing_sentiments rows ↔ some s ∈ rows.map (fun r => r.sentiment) := by
  rw [existing_sentiments_eq_dedup, List.mem_dedup, List.mem_filterMap]
  constructor
  · rintro ⟨a, ha, rfl⟩
    exact ha
  · intro h
    exact ⟨some s, h, rfl⟩

/-- C7: the bar chart's category sequence is the fixed order
`[Negative, Neutral, Positive]` restricted to the labels actually occurring
among the displayed rows' `Sentiment` values; in particular it is a
subsequence of the fixed order, and any label with zero occurrences is
omitted entirely. -/
theorem c7_chart_category_sequence (rows : List Row) :
    (filtered_order rows).Sublist sentiment_order ∧
      ∀ s, s ∈ filtered_order rows ↔
        (s ∈ sentiment_order ∧
          0 < (rows.map (fun r => r.sentiment)).count (some s)) := by
  refine ⟨List.filter_sublist _, ?_⟩
  intro s
  rw [filtered_order, List.mem_filter, contains_eq_true_iff_mem,
    mem_existing_sentiments, List.count_pos_iff]

/-- Witness for C7, matching the spec's worked example: two `Negative` rows
and three `Positive` rows, no `Neutral` row; the category sequence is
exactly `[Negative, Positive]`. -/
def rowsTwoNegThreePos : List Row :=
  [{ id := some "S1", comment := some "a", sentiment := some "Negative" },
   { id := some "S2", comment := some "b", sentiment := some "Negative" },
   { id := some "S3", comment := some "c", sentiment := some "Positive" },
   { id := some "S4", comment := some "d", sentiment := some "Positive" },
   { id := some "S5", comment := some "e", sentiment := some "Positive" }]

/-- Witness for C7 evaluated on the concrete five-row data. -/
theorem c7_chart_category_sequence_witness :
    ((filtered_order rowsTwoNegThreePos).Sublist sentiment_order ∧
        ∀ s, s ∈ filtered_order rowsTwoNegThreePos ↔
          (s ∈ sentiment_order ∧
            0 < (rowsTwoNegThreePos.map (fun r => r.sentiment)).count (some s))) ∧
      filtered_order rowsTwoNegThreePos = ["Negative", "Positive"] :=
  ⟨c7_chart_category_sequence rowsTwoNegThreePos, by decide⟩

theorem length_filterMap_sentiment (rows : List Row) :
    (rows.filterMap (fun r => r.sentiment)).length =
      (rows.filter (fun r => r.sentiment.isSome)).length := by
  induction rows with
  | nil => rfl
  | cons r rs ih =>
    cases h : r.sentiment <;>
      simp [List.filterMap_cons, List.filter_cons, h, ih]

/-- C10: every displayed per-label count is at least 1, and the counts sum
to the number of displayed rows that carry a `Sentiment` value; rows without
one contribute to no bar. -/
theorem c10_counts_positive_sum_to_labelled (rows : List Row) :
    (∀ p ∈ sentiment_counts rows, 1 ≤ p.2) ∧
      ((sentiment_counts rows).map Prod.snd).sum =
        (rows.filter (fun r => r.sentiment.isSome)).length := by
  constructor
  · intro p hp
    rcases List.mem_map.mp hp with ⟨v, hv, rfl⟩
    exact List.count_pos_iff.mpr (List.mem_dedup.mp hv)
  · have h1 : ((sentiment_counts rows).map Prod.snd).sum =
        (((rows.map (fun r => r.sentiment)).filterMap id).dedup.map
          (fun v => ((rows.map (fun r => r.sentiment)).filterMap id).count v)).sum := by
      simp [sentiment_counts, value_counts, List.map_map, Function.comp_def]
    rw [h1, List.sum_map_count_dedup_eq_length, List.filterMap_map]
    simpa using length_filterMap_sentiment rows

/-- Witness for C10 on the concrete data of the C7 example: counts are
`Negative ↦ 2` and `Positive ↦ 3`, all positive, summing to the five
labelled rows. -/
theorem c10_counts_positive_sum_to_labelled_witness :
    (∀ p ∈ sentiment_counts rowsTwoNegThreePos, 1 ≤ p.2) ∧
      ((sentiment_counts rowsTwoNegThreePos).map Prod.snd).sum =
        (rowsTwoNegThreePos.filter (fun r => r.sentiment.isSome)).length :=
  c10_counts_positive_sum_to_labelled rowsTwoNegThreePos

/-- Embeds the Filter-by-Student-ID block (`src/app.py` lines 80-83).  The
selection is the string chosen in the selectbox, whose options are the
sentinel `"All IDs"` followed by the distinct values of the `Id` column.
A selection different from the sentinel keeps exactly the exact-match rows
(`df[df["Id"] == selected_id]`; a missing `Id` cell never matches);
otherwise the full table is kept. -/
def filterById (rows : List Row) (selected_id : String) : List Row :=
  if selected_id ≠ "All IDs" then
    rows.filter (fun r => r.id == some selected_id)
  else
    rows

/-- What the display section produces when it completes: the warnings
emitted, the `(Id, comment)` cells of the rows shown by `st.dataframe`, and
the bar chart's category sequence when the chart is rendered. -/
structure RenderOutput where
  warnings : List String
  shownRows : List (Option String × Option String)
  chartCategories : Option (List String)
deriving Repr, DecidableEq

/-- Embeds the display section (`src/app.py` lines 71-129) for a loaded
table and the current selection.  When the `Id` column is present, the rows
are filtered by the selection; otherwise `st.warning` is emitted and the
full table is used.  Then `st.dataframe(filtered_df[["Id", "comment"]])`
runs: selecting those two columns raises `KeyError` when either is absent
from the dataframe, modelled as `Except.error` carrying the warnings
already emitted together with the error.  Finally, when a `Sentiment`
column exists, the bar chart is rendered with category order
`filtered_order`. -/
def renderDisplay (selected_id : String) (t : FeedbackTable) :
    Except (List String × String) RenderOutput :=
  let warnings :=
    if "Id" ∈ t.columns then []
    else ["No Id column found in the dataset. Showing all data."]
  let filtered_df :=
    if "Id" ∈ t.columns then filterById t.rows selected_id else t.rows
  if "Id" ∈ t.columns ∧ "comment" ∈ t.columns then
    Except.ok
      { warnings := warnings
        shownRows := filtered_df.map (fun r => (r.id, r.comment))
        chartCategories :=
          if "Sentiment" ∈ t.columns then some (filtered_order filtered_df)
          else none }
  else
    Except.error (warnings, "KeyError: columns not in index")

/-- A one-row loaded table with no `Id` column, C4's failing input. -/
def tableNoId : FeedbackTable :=
  { columns := ["comment"],
    rows := [{ id := none, comment := some "great class", sentiment := none }] }

/-- C4 evaluated at its failing input: with no `Id` column the section does
warn and does treat the full table as the filtered subset, but the column
selection `filtered_df[["Id", "comment"]]` then raises `KeyError`, so
rendering aborts instead of completing non-fatally as the claim states. -/
theorem c4_missing_id_render_raises :
    renderDisplay "All IDs" tableNoId =
      Except.error (["No Id column found in the dataset. Showing all data."],
        "KeyError: columns not in index") := by
  rfl

/-- C6 counterexample data: a table one of whose `Id` values is literally
the sentinel string `"All IDs"`. -/
def tableSentinelId : FeedbackTable :=
  { columns := ["Id", "comment"],
    rows := [{ id := some "All IDs", comment := some "odd id", sentiment := none },
             { id := some "S2", comment := some "fine", sentiment := none }] }

/-- C6 counterexample: selecting the specific identifier `"All IDs"` (which
occurs in the `Id` column of `tableSentinelId`) yields both rows, not only
the single exact-match row, because the code compares the selection against
the sentinel string first. -/
theorem c6_sentinel_id_not_exact_match :
    (filterById tableSentinelId.rows "All IDs").length = 2 ∧
      (tableSentinelId.rows.filter (fun r => r.id == some "All IDs")).length = 1 := by
  decide

/-- C6 amended: selecting the sentinel yields the full table unchanged, and
selecting any identifier different from the sentinel string yields exactly
the rows whose `Id` equals it (possibly none). -/
theorem c6_filter_by_id (t : FeedbackTable) (sel : String) :
    filterById t.rows "All IDs" = t.rows ∧
      (sel ≠ "All IDs" →
        ∀ r, r ∈ filterById t.rows sel ↔ r ∈ t.rows ∧ r.id = some sel) := by
  constructor
  · simp [filterById]
  · intro hsel r
    simp [filterById, hsel, List.mem_filter]

/-- Witness for C6 on the six-row table with the non-sentinel selection
`"S2"`. -/
theorem c6_filter_by_id_witness :
    (filterById tableSix.rows "All IDs" = tableSix.rows) ∧
      (("S2" ≠ "All IDs") ∧
        ∀ r, r ∈ filterById tableSix.rows "S2" ↔ r ∈ tableSix.rows ∧ r.id = some "S2") :=
  ⟨(c6_filter_by_id tableSix "S2").1,
    by decide,
    (c6_filter_by_id tableSix "S2").2 (by decide)⟩

/-- A freshly loaded two-row table used by C5. -/
def tableTwo : FeedbackTable :=
  { columns := ["Id", "comment"],
    rows := [{ id := some "S1", comment := some "good", sentiment := none },
             { id := some "S2", comment := some "bad", sentiment := none }] }

/-- A per-row classifier that succeeds on the first row's comment and raises
on the second row's comment. -/
def failingOnBad : Option String → Except String String :=
  fun c => if c == some "good" then Except.ok "Positive" else Except.error "boom"

/-- C5 counterexample: classifying row 0 succeeds (the value `"Positive"` is
produced) and classifying row 1 raises.  The handler does report the
non-fatal message, but after it runs row 0 carries no `Sentiment` value:
the result produced before the failing row was never written, because the
whole batch is assigned in one `.loc` write only after every classification
succeeds.  This contradicts the claim that already-produced values remain
written in the table. -/
theorem c5_batch_failure_discards_earlier_results :
    (tableTwo.rows.map (fun r => r.comment) = [some "good", some "bad"]) ∧
      failingOnBad (some "good") = Except.ok "Positive" ∧
      failingOnBad (some "bad") = Except.error "boom" ∧
      (analyzeBatch failingOnBad tableTwo).2 = ["Something went wrong: boom"] ∧
      sentimentAt (analyzeBatch failingOnBad tableTwo).1.rows 0 = none :=
  ⟨rfl, rfl, rfl, rfl, rfl⟩

/-- C5 amended: if any exception occurs during the batch classification of
the five-row window, the handler reports the non-fatal message and leaves
the table entirely unchanged — no `Sentiment` value from the failed batch
is written, because the single column assignment runs only after every
classification in the window has succeeded. -/
theorem c5_amended_batch_failure_leaves_table_unchanged
    (f : Option String → Except String String) (t : FeedbackTable) (e : String)
    (hc : "comment" ∈ t.columns)
    (h : applyClassify f (t.rows.take 5) = Except.error e) :
    analyzeBatch f t = (t, ["Something went wrong: " ++ e]) := by
  unfold analyzeBatch
  rw [if_pos hc, h]

/-- Witness for the amended C5 on the concrete two-row table. -/
theorem c5_amended_batch_failure_leaves_table_unchanged_witness :
    ("comment" ∈ tableTwo.columns) ∧
      (applyClassify failingOnBad (tableTwo.rows.take 5) = Except.error "boom") ∧
      analyzeBatch failingOnBad tableTwo =
        (tableTwo, ["Something went wrong: " ++ "boom"]) :=
  ⟨by decide, rfl,
    c5_amended_batch_failure_leaves_table_unchanged failingOnBad tableTwo "boom"
      (by decide) rfl⟩

/-- Modelled from the spec: `st.cache_data` (`src/app.py` line 21) is
framework code outside this repository; per the spec it memoizes
`get_sentiment` by exact input text for the process lifetime.  The state is
the cache of previously returned labels plus the total number of remote
calls made so far in the process. -/
structure CacheState where
  cache : List (Option String × String)
  remoteCalls : Nat
deriving Repr, DecidableEq

/-- One call of the memoized classifier: a cache hit returns the stored
label and does nothing else; a miss runs `get_sentiment`, stores its label,
and accumulates its remote calls. -/
def cachedGetSentiment (remote : String → Except String String)
    (text : Option String) (st : CacheState) : String × CacheState :=
  match st.cache.lookup text with
  | some l => (l, st)
  | none =>
    let r := get_sentiment remote text
    (r.label,
      { cache := (text, r.label) :: st.cache,
        remoteCalls := st.remoteCalls + r.remoteCalls })

theorem get_sentiment_remoteCalls_le_one
    (remote : String → Except String String) (text : Option String) :
    (get_sentiment remote text).remoteCalls ≤ 1 := by
  unfold get_sentiment
  rcases text with _ | s
  · simp [isMissingText]
  · cases h : isMissingText (some s) with
    | true => simp [h]
    | false => cases hr : remote s <;> simp [h, hr]

/-- C8 (memoization modelled from the spec, `st.cache_data` being framework
code): starting from an empty cache, submitting the same non-empty text
twice makes at most one remote call in total, and the second call returns
the same label as the first. -/
theorem c8_memoized_single_remote_call
    (remote : String → Except String String) (s : String) (_hs : s ≠ "") :
    ((cachedGetSentiment remote (some s)
        (cachedGetSentiment remote (some s) { cache := [], remoteCalls := 0 }).2).1 =
      (cachedGetSentiment remote (some s) { cache := [], remoteCalls := 0 }).1) ∧
      (cachedGetSentiment remote (some s)
        (cachedGetSentiment remote (some s)
          { cache := [], remoteCalls := 0 }).2).2.remoteCalls ≤ 1 := by
  unfold cachedGetSentiment
  simp [List.lookup]
  exact get_sentiment_remoteCalls_le_one remote (some s)

/-- Witness for C8 at the concrete non-empty text `"great class"`. -/
theorem c8_memoized_single_remote_call_witness :
    ("great class" ≠ "") ∧
      ((cachedGetSentiment remoteAlwaysPositive (some "great class")
          (cachedGetSentiment remoteAlwaysPositive (some "great class")
            { cache := [], remoteCalls := 0 }).2).1 =
        (cachedGetSentiment remoteAlwaysPositive (some "great class")
          { cache := [], remoteCalls := 0 }).1) ∧
      (cachedGetSentiment remoteAlwaysPositive (some "great class")
          (cachedGetSentiment remoteAlwaysPositive (some "great class")
            { cache := [], remoteCalls := 0 }).2).2.remoteCalls ≤ 1 := by
  have h := c8_memoized_single_remote_call remoteAlwaysPositive "great class" (by decide)
  exact ⟨by decide, h.1, h.2⟩
